import Mathlib

/-!
Verification development for a pump/dump market scanner (src/app.py).

The Python source is shallowly embedded: candles and signals become
structures over `ℚ` (the float arithmetic of the source is modelled by
exact rational arithmetic; `np.std`'s square root is `Rat.sqrt`, which
agrees with the real square root on perfect-square rationals, the only
case our concrete inputs exercise, and satisfies `Rat.sqrt v = 0 ↔ v = 0`
for `v ≥ 0`, the only property the zero-variance guard needs), the
module-level configuration constants become a `Config` record threaded
into the classifier, and the impure `time.time()` read becomes an explicit
`now` argument.  The `try/except` wrapper of `analyze_pump_dump` is not
modelled: every embedded function is total.
-/

/-- One OHLCV candle (`c[0]..c[5]` in the source); `analyze_pump_dump`
reads only `c[4]` (close) and `c[5]` (volume). -/
structure Candle where
  openTime : ℚ
  openPrice : ℚ
  highPrice : ℚ
  lowPrice : ℚ
  close : ℚ
  volume : ℚ
deriving DecidableEq, Repr

/-- Default candle used for the (never reached under the length guards)
out-of-range list reads. -/
def dfltCandle : Candle := ⟨0, 0, 0, 0, 0, 0⟩

/-- The module-level scanner configuration constants of src/app.py
(lines 21–26), gathered into a record. -/
structure Config where
  PRICE_CHANGE_THRESHOLD : ℚ
  VOLUME_SPIKE_THRESHOLD : ℚ
  MIN_ABSOLUTE_VOLUME : ℚ
  REQUIRE_VOLUME_CONFIRMATION : Bool
deriving DecidableEq, Repr

/-- The values assigned to the module constants in the source. -/
def defaultConfig : Config :=
  { PRICE_CHANGE_THRESHOLD := 2.5
    VOLUME_SPIKE_THRESHOLD := 1.5
    MIN_ABSOLUTE_VOLUME := 30000
    REQUIRE_VOLUME_CONFIRMATION := true }

/-- Cooldown constant `SIGNAL_COOLDOWN_MIN = 5` (line 29). -/
def SIGNAL_COOLDOWN_MIN : ℚ := 5

/-- Population mean, `np.mean`. -/
def listMean (l : List ℚ) : ℚ := l.sum / l.length

/-- Population standard deviation, `np.std` (ddof = 0). -/
def listStd (l : List ℚ) : ℚ :=
  Rat.sqrt ((l.map (fun x => (x - listMean l) ^ 2)).sum / l.length)

/-- Embedding of `calculate_volume_zscore` (lines 33–42): guard on length,
slice `volumes[-period:]`, zero-variance guard, then score `volumes[-1]`
against the slice's mean and standard deviation. -/
def calculate_volume_zscore (volumes : List ℚ) (period : ℕ) : ℚ :=
  if volumes.length < period then 0
  else if listStd (volumes.drop (volumes.length - period)) = 0 then 0
  else (volumes.getLastD 0 - listMean (volumes.drop (volumes.length - period))) /
    listStd (volumes.drop (volumes.length - period))

/-- Embedding of `calculate_price_change` (lines 44–59): percentage change
between `ohlcv[-1][4]` and `ohlcv[-3][4]`, with guards for short input and
a zero reference close. -/
def calculate_price_change (ohlcv : List Candle) : ℚ :=
  if ohlcv.length < 3 then 0
  else if (ohlcv.getD (ohlcv.length - 3) dfltCandle).close = 0 then 0
  else ((ohlcv.getLastD dfltCandle).close - (ohlcv.getD (ohlcv.length - 3) dfltCandle).close) /
    (ohlcv.getD (ohlcv.length - 3) dfltCandle).close * 100

/-- Successive differences, `np.diff`. -/
def npDiff (l : List ℚ) : List ℚ := List.zipWith (fun a b => b - a) l l.tail

/-- Seed average gain of `calculate_rsi` (line 68): mean over `period` of
the nonnegative entries among the first `period` differences. -/
def rsiSeedUp (deltas : List ℚ) (period : ℕ) : ℚ :=
  ((deltas.take period).filter (fun d => decide (0 ≤ d))).sum / period

/-- Seed average loss of `calculate_rsi` (line 69): mean over `period` of
the negated negative entries among the first `period` differences. -/
def rsiSeedDown (deltas : List ℚ) (period : ℕ) : ℚ :=
  (-((deltas.take period).filter (fun d => decide (d < 0))).sum) / period

/-- One iteration of the smoothing loop of `calculate_rsi` (lines 78–94),
acting on the state `(up, down, rsi)`. -/
def rsiStep (period : ℕ) (st : ℚ × ℚ × ℚ) (delta : ℚ) : ℚ × ℚ × ℚ :=
  let upVal := if delta > 0 then delta else 0
  let downVal := if delta > 0 then (0 : ℚ) else -delta
  let up := (st.1 * ((period : ℚ) - 1) + upVal) / period
  let down := (st.2.1 * ((period : ℚ) - 1) + downVal) / period
  (up, down, if down = 0 then 100 else 100 - 100 / (1 + up / down))

/-- Embedding of `calculate_rsi` (lines 61–96): neutral 50 on short input,
saturation 100 when the seed average loss is zero, otherwise Wilder
smoothing of the remaining differences starting from the seeded averages. -/
def calculate_rsi (prices : List ℚ) (period : ℕ := 14) : ℚ :=
  if prices.length < period + 1 then 50
  else if rsiSeedDown (npDiff prices) period = 0 then 100
  else
    (((npDiff prices).drop period).foldl (rsiStep period)
      (rsiSeedUp (npDiff prices) period, rsiSeedDown (npDiff prices) period,
        100 - 100 / (1 + rsiSeedUp (npDiff prices) period / rsiSeedDown (npDiff prices) period))).2.2

/-- Python slice `l[-k:]`. -/
def lastN (l : List ℚ) (k : ℕ) : List ℚ := l.drop (l.length - k)

/-- Line 105: `closes = [float(c[4]) for c in ohlcv]`. -/
def closesOf (ohlcv : List Candle) : List ℚ := ohlcv.map Candle.close

/-- Line 106: `volumes = [float(c[5]) for c in ohlcv]`. -/
def volumesOf (ohlcv : List Candle) : List ℚ := ohlcv.map Candle.volume

/-- Line 109: `current_volume = volumes[-1]`. -/
def currentVolume (ohlcv : List Candle) : ℚ := (volumesOf ohlcv).getLastD 0

/-- Line 110: `current_close = closes[-1]`. -/
def currentClose (ohlcv : List Candle) : ℚ := (closesOf ohlcv).getLastD 0

/-- Line 116: `rsi = calculate_rsi(closes[-30:])`. -/
def rsiOf (ohlcv : List Candle) : ℚ := calculate_rsi (lastN (closesOf ohlcv) 30)

/-- Line 119: `volume_zscore = calculate_volume_zscore(volumes[:-1], 15)`. -/
def zscoreOf (ohlcv : List Candle) : ℚ :=
  calculate_volume_zscore (volumesOf ohlcv).dropLast 15

/-- Line 122: `volume_pass = current_volume >= MIN_ABSOLUTE_VOLUME`. -/
abbrev volume_pass (cfg : Config) (ohlcv : List Candle) : Prop :=
  currentVolume ohlcv ≥ cfg.MIN_ABSOLUTE_VOLUME

/-- Line 125: `is_pump = price_change >= PRICE_CHANGE_THRESHOLD`. -/
abbrev is_pump (cfg : Config) (ohlcv : List Candle) : Prop :=
  calculate_price_change ohlcv ≥ cfg.PRICE_CHANGE_THRESHOLD

/-- Line 126: `is_dump = price_change <= -PRICE_CHANGE_THRESHOLD`. -/
abbrev is_dump (cfg : Config) (ohlcv : List Candle) : Prop :=
  calculate_price_change ohlcv ≤ -cfg.PRICE_CHANGE_THRESHOLD

/-- Line 130: `rsi_filter = not (rsi > 85 or rsi < 15)`. -/
abbrev rsi_filter (ohlcv : List Candle) : Prop :=
  ¬(rsiOf ohlcv > 85 ∨ rsiOf ohlcv < 15)

/-- Lines 133–134: `avg_last_3 = sum(volumes[-3:]) / 3`. -/
def avgLast3 (ohlcv : List Candle) : ℚ := (lastN (volumesOf ohlcv) 3).sum / 3

/-- Line 135: `avg_prev_10 = sum(volumes[-13:-3]) / 10 if len(volumes) >= 13
else avg_last_3`. -/
def avgPrev10 (ohlcv : List Candle) : ℚ :=
  if (volumesOf ohlcv).length ≥ 13 then
    (((volumesOf ohlcv).drop ((volumesOf ohlcv).length - 13)).take 10).sum / 10
  else avgLast3 ohlcv

/-- Line 136: `volume_growth = avg_last_3 / avg_prev_10 if avg_prev_10 > 0
else 1.0`. -/
def volumeGrowth (ohlcv : List Candle) : ℚ :=
  if avgPrev10 ohlcv > 0 then avgLast3 ohlcv / avgPrev10 ohlcv else 1

/-- Line 139: `volume_ok = volume_pass and (volume_zscore >=
VOLUME_SPIKE_THRESHOLD or volume_growth >= 1.8)`. -/
abbrev volume_ok (cfg : Config) (ohlcv : List Candle) : Prop :=
  volume_pass cfg ohlcv ∧
    (zscoreOf ohlcv ≥ cfg.VOLUME_SPIKE_THRESHOLD ∨ volumeGrowth ohlcv ≥ 1.8)

/-- The signal dictionary returned by `analyze_pump_dump` (lines 159–171). -/
structure Signal where
  symbol : String
  type : String
  price_change : ℚ
  volume_zscore : ℚ
  volume_usdt : ℚ
  current_price : ℚ
  confidence : ℕ
  strength : String
  rsi : ℚ
  volume_growth : ℚ
  timestamp : ℚ
deriving DecidableEq, Repr

/-- The signal record built at lines 144–171: the severity tiering of the
price change (lines 145–153), the direction label (line 155), and the
dictionary of lines 159–171.  `now` stands for the `time.time()` read at
line 170. -/
def mkSignal (cfg : Config) (now : ℚ) (symbol : String) (ohlcv : List Candle) : Signal :=
  { symbol := symbol
    type := if is_pump cfg ohlcv then "PUMP" else "DUMP"
    price_change := calculate_price_change ohlcv
    volume_zscore := zscoreOf ohlcv
    volume_usdt := currentVolume ohlcv
    current_price := currentClose ohlcv
    confidence :=
      if |calculate_price_change ohlcv| ≥ 5 then 85
      else if |calculate_price_change ohlcv| ≥ 3.5 then 75
      else 65
    strength :=
      if |calculate_price_change ohlcv| ≥ 5 then "💥 СИЛЬНЫЙ"
      else if |calculate_price_change ohlcv| ≥ 3.5 then "🚨 СРЕДНИЙ"
      else "📈 СЛАБЫЙ"
    rsi := rsiOf ohlcv
    volume_growth := volumeGrowth ohlcv
    timestamp := now }

/-- Embedding of `analyze_pump_dump` (lines 100–175): length guard, the
combined gate of line 141, then the signal record. -/
def analyze_pump_dump (cfg : Config) (now : ℚ) (symbol : String)
    (ohlcv : List Candle) : Option Signal :=
  if ohlcv.length < 30 then none
  else if (is_pump cfg ohlcv ∨ is_dump cfg ohlcv) ∧ volume_ok cfg ohlcv ∧ rsi_filter ohlcv then
    some (mkSignal cfg now symbol ohlcv)
  else none

/-- Candle with only the fields the classifier reads (close, volume). -/
def mkCandle (c v : ℚ) : Candle := ⟨0, 0, 0, 0, c, v⟩

/-- Builds a candle window from parallel close and volume sequences. -/
def mkWindow (closes volumes : List ℚ) : List Candle := List.zipWith mkCandle closes volumes

/-- Thirty closes oscillating between 101 and 100, ending 103, 106: a 6%
two-candle jump (close 27 is 100, close 29 is 106) with RSI ≈ 64.47. -/
def scenarioCloses : List ℚ :=
  [101, 100, 101, 100, 101, 100, 101, 100, 101, 100,
   101, 100, 101, 100, 101, 100, 101, 100, 101, 100,
   101, 100, 101, 100, 101, 100, 101, 100, 103, 106]

/-- A 30-candle window that produces a signal under the default
configuration: flat volume 10 with a final bar of 50000. -/
def signalWindow : List Candle :=
  mkWindow scenarioCloses (List.replicate 29 10 ++ [50000])

/-- The same closes with a final volume of only 50 (scenario A as amended:
min-volume gate must be lifted for it to signal). -/
def windowScenA : List Candle :=
  mkWindow scenarioCloses (List.replicate 29 10 ++ [50])

/-- The same closes with a final volume of 100: below the default
MIN_ABSOLUTE_VOLUME of 30000. -/
def lowVolWindow : List Candle :=
  mkWindow scenarioCloses (List.replicate 29 10 ++ [100])

/-- Scenario B closes: same oscillation but the final close is 101, a 1%
two-candle move. -/
def scenarioClosesB : List ℚ :=
  [101, 100, 101, 100, 101, 100, 101, 100, 101, 100,
   101, 100, 101, 100, 101, 100, 101, 100, 101, 100,
   101, 100, 101, 100, 101, 100, 101, 100, 103, 101]

/-- A 30-candle window with a 1% move and a large final volume. -/
def windowScenB : List Candle :=
  mkWindow scenarioClosesB (List.replicate 29 10 ++ [50000])

/-- A 30-candle window with perfectly flat closes before a 6% jump: its
RSI is exactly 100, so the extremity filter rejects it even though the
price and volume gates pass. -/
def rsi100Window : List Candle :=
  mkWindow (List.replicate 29 100 ++ [106]) (List.replicate 29 10 ++ [50000])

/-- The literal window of scenario A as claimed: 25 candles, closes flat
at 100 until a final 106, historical volumes with 20-value mean 10 and
standard deviation 2, current volume 50. -/
def windowClaimA : List Candle :=
  mkWindow (List.replicate 24 100 ++ [106])
    ([10, 10, 10, 10] ++ List.replicate 10 8 ++ List.replicate 10 12 ++ [50])

/-- Scenario A configuration: conservative thresholds with the
minimum-absolute-volume gate set to 0. -/
def cfgScenA : Config :=
  { PRICE_CHANGE_THRESHOLD := 5
    VOLUME_SPIKE_THRESHOLD := 3
    MIN_ABSOLUTE_VOLUME := 0
    REQUIRE_VOLUME_CONFIRMATION := true }

/-- Sixteen volumes whose first fifteen values have mean 10 and population
standard deviation 2 (squared deviations 25+16+1+9+9 = 60, variance 4),
whose fifteenth value is 10 and whose final (current-bar) value is 50. -/
def zscoreVols : List ℚ :=
  [15, 6, 9, 13, 7, 10, 10, 10, 10, 10, 10, 10, 10, 10, 10, 50]

/-- The per-instrument cooldown map `recent_signals` of `main`. -/
abbrev RecentSignals := String → Option ℚ

/-- The scan loop's cooldown gate (lines 302–306): the instrument is
analyzed unless it has an entry recorded less than
`SIGNAL_COOLDOWN_MIN * 60` seconds ago. -/
def shouldAnalyze (recent : RecentSignals) (symbol : String) (now : ℚ) : Prop :=
  match recent symbol with
  | none => True
  | some t => ¬(now - t < SIGNAL_COOLDOWN_MIN * 60)

/-- Line 318: `recent_signals[symbol] = current_time`. -/
def recordSignal (recent : RecentSignals) (symbol : String) (now : ℚ) : RecentSignals :=
  fun s => if s = symbol then some now else recent s

/-- Lines 341–343: the end-of-cycle sweep keeps exactly the entries with
`current_time - v < SIGNAL_COOLDOWN_MIN * 60 * 3`. -/
def sweepSignals (recent : RecentSignals) (now : ℚ) : RecentSignals :=
  fun s =>
    match recent s with
    | some t => if now - t < SIGNAL_COOLDOWN_MIN * 60 * 3 then some t else none
    | none => none

/-! ### Helper lemmas -/

theorem analyze_some_elim {cfg : Config} {now : ℚ} {s : String} {o : List Candle} {sig : Signal}
    (h : analyze_pump_dump cfg now s o = some sig) :
    ¬o.length < 30 ∧ (is_pump cfg o ∨ is_dump cfg o) ∧ volume_ok cfg o ∧ rsi_filter o ∧
      sig = mkSignal cfg now s o := by
  unfold analyze_pump_dump at h
  by_cases h1 : o.length < 30
  · rw [if_pos h1] at h
    exact absurd h (by simp)
  · by_cases h2 : (is_pump cfg o ∨ is_dump cfg o) ∧ volume_ok cfg o ∧ rsi_filter o
    · rw [if_neg h1, if_pos h2] at h
      injection h with h3
      exact ⟨h1, h2.1, h2.2.1, h2.2.2, h3.symm⟩
    · rw [if_neg h1, if_neg h2] at h
      exact absurd h (by simp)

theorem analyze_of_gate {cfg : Config} {now : ℚ} {s : String} {o : List Candle}
    (h1 : ¬o.length < 30)
    (h2 : (is_pump cfg o ∨ is_dump cfg o) ∧ volume_ok cfg o ∧ rsi_filter o) :
    analyze_pump_dump cfg now s o = some (mkSignal cfg now s o) := by
  unfold analyze_pump_dump
  rw [if_neg h1, if_pos h2]

theorem ratSqrt_four : Rat.sqrt 4 = 2 := by
  rw [show (4 : ℚ) = 2 * 2 by norm_num, Rat.sqrt_eq]
  norm_num

theorem getLastD_mem_drop (l : List ℚ) (h : 15 ≤ l.length) :
    l.getLastD 0 ∈ l.drop (l.length - 15) := by
  have hne : l.getLast?.isSome := by
    rw [List.getLast?_isSome]
    intro heq
    rw [heq] at h
    simp at h
  obtain ⟨a, ha⟩ := Option.isSome_iff_exists.mp hne
  have hd : (l.drop (l.length - 15)).getLast? = some a := by
    rw [List.getLast?_drop, if_neg (by omega)]
    exact ha
  rw [List.getLastD_eq_getLast?, ha]
  exact List.mem_of_mem_getLast? hd

/-! ### Evaluation lemmas for the concrete windows -/

theorem pc_signalWindow : calculate_price_change signalWindow = 6 := by
  have h : calculate_price_change signalWindow =
      if (30 : ℕ) < 3 then 0 else if (100 : ℚ) = 0 then 0
      else ((106 : ℚ) - 100) / 100 * 100 := rfl
  rw [h]; norm_num

theorem pc_scenA : calculate_price_change windowScenA = 6 := by
  have h : calculate_price_change windowScenA =
      if (30 : ℕ) < 3 then 0 else if (100 : ℚ) = 0 then 0
      else ((106 : ℚ) - 100) / 100 * 100 := rfl
  rw [h]; norm_num

theorem pc_scenB : calculate_price_change windowScenB = 1 := by
  have h : calculate_price_change windowScenB =
      if (30 : ℕ) < 3 then 0 else if (100 : ℚ) = 0 then 0
      else ((101 : ℚ) - 100) / 100 * 100 := rfl
  rw [h]; norm_num

set_option maxRecDepth 8000 in
theorem rsi_scenario : rsiOf signalWindow = 51171149917616621 / 793714773254144 := by
  have h : lastN (closesOf signalWindow) 30 = scenarioCloses := rfl
  unfold rsiOf
  rw [h]
  norm_num [calculate_rsi, npDiff, rsiSeedUp, rsiSeedDown, rsiStep, scenarioCloses,
    List.zipWith, List.filter, List.foldl]

theorem rsiFilter_signalWindow : rsi_filter signalWindow := by
  show ¬(rsiOf signalWindow > 85 ∨ rsiOf signalWindow < 15)
  rw [rsi_scenario]
  norm_num

theorem rsiFilter_scenA : rsi_filter windowScenA := by
  show ¬(rsiOf windowScenA > 85 ∨ rsiOf windowScenA < 15)
  rw [show rsiOf windowScenA = rsiOf signalWindow from rfl, rsi_scenario]
  norm_num

theorem rsi_flat : rsiOf rsi100Window = 100 := by
  have h : lastN (closesOf rsi100Window) 30 =
      [100, 100, 100, 100, 100, 100, 100, 100, 100, 100,
       100, 100, 100, 100, 100, 100, 100, 100, 100, 100,
       100, 100, 100, 100, 100, 100, 100, 100, 100, 106] := rfl
  unfold rsiOf
  rw [h]
  norm_num [calculate_rsi, npDiff, rsiSeedDown, List.zipWith, List.filter]

theorem growth_signalWindow : volumeGrowth signalWindow = 5002 / 3 := by
  have h3 : lastN (volumesOf signalWindow) 3 = [10, 10, 50000] := rfl
  have h10 : ((volumesOf signalWindow).drop ((volumesOf signalWindow).length - 13)).take 10 =
      [10, 10, 10, 10, 10, 10, 10, 10, 10, 10] := rfl
  unfold volumeGrowth avgPrev10 avgLast3
  rw [if_pos (by decide : (volumesOf signalWindow).length ≥ 13), h10, h3]
  norm_num

theorem growth_scenA : volumeGrowth windowScenA = 7 / 3 := by
  have h3 : lastN (volumesOf windowScenA) 3 = [10, 10, 50] := rfl
  have h10 : ((volumesOf windowScenA).drop ((volumesOf windowScenA).length - 13)).take 10 =
      [10, 10, 10, 10, 10, 10, 10, 10, 10, 10] := rfl
  unfold volumeGrowth avgPrev10 avgLast3
  rw [if_pos (by decide : (volumesOf windowScenA).length ≥ 13), h10, h3]
  norm_num

theorem analyze_signalWindow (now : ℚ) (s : String) :
    analyze_pump_dump defaultConfig now s signalWindow =
      some (mkSignal defaultConfig now s signalWindow) := by
  apply analyze_of_gate (by decide)
  refine ⟨Or.inl ?_, ⟨?_, Or.inr ?_⟩, rsiFilter_signalWindow⟩
  · show calculate_price_change signalWindow ≥ defaultConfig.PRICE_CHANGE_THRESHOLD
    rw [pc_signalWindow]
    norm_num [defaultConfig]
  · show currentVolume signalWindow ≥ defaultConfig.MIN_ABSOLUTE_VOLUME
    rw [show currentVolume signalWindow = 50000 from rfl]
    norm_num [defaultConfig]
  · show volumeGrowth signalWindow ≥ 1.8
    rw [growth_signalWindow]
    norm_num

theorem analyze_scenA (now : ℚ) (s : String) :
    analyze_pump_dump cfgScenA now s windowScenA =
      some (mkSignal cfgScenA now s windowScenA) := by
  apply analyze_of_gate (by decide)
  refine ⟨Or.inl ?_, ⟨?_, Or.inr ?_⟩, rsiFilter_scenA⟩
  · show calculate_price_change windowScenA ≥ cfgScenA.PRICE_CHANGE_THRESHOLD
    rw [pc_scenA]
    norm_num [cfgScenA]
  · show currentVolume windowScenA ≥ cfgScenA.MIN_ABSOLUTE_VOLUME
    rw [show currentVolume windowScenA = 50 from rfl]
    norm_num [cfgScenA]
  · show volumeGrowth windowScenA ≥ 1.8
    rw [growth_scenA]
    norm_num

/-! ### Claim C1 -/

/-- Modelled from the claim's words: the z-score C1 describes, scoring the
CURRENT bar's volume against the mean and standard deviation of the last
15 values of the volume history excluding the current bar. -/
def zscoreSpecC1 (volumes : List ℚ) : ℚ :=
  if volumes.dropLast.length < 15 then 0
  else if listStd (volumes.dropLast.drop (volumes.dropLast.length - 15)) = 0 then 0
  else (volumes.getLastD 0 - listMean (volumes.dropLast.drop (volumes.dropLast.length - 15))) /
    listStd (volumes.dropLast.drop (volumes.dropLast.length - 15))

/-- Amended version of C1: the scored value is the PREVIOUS bar's volume
(the last element of the history excluding the current bar), and it is
itself part of the slice whose mean and standard deviation are taken. -/
def zscoreSpecAmended (volumes : List ℚ) : ℚ :=
  if volumes.dropLast.length < 15 then 0
  else if listStd (volumes.dropLast.drop (volumes.dropLast.length - 15)) = 0 then 0
  else (volumes.dropLast.getLastD 0 - listMean (volumes.dropLast.drop (volumes.dropLast.length - 15))) /
    listStd (volumes.dropLast.drop (volumes.dropLast.length - 15))

theorem zscoreVols_std :
    listStd (zscoreVols.dropLast.drop (zscoreVols.dropLast.length - 15)) = 2 := by
  have h2 : zscoreVols.dropLast.drop (zscoreVols.dropLast.length - 15) =
      [15, 6, 9, 13, 7, 10, 10, 10, 10, 10, 10, 10, 10, 10, 10] := rfl
  rw [h2]
  norm_num [listStd, listMean, ratSqrt_four]

theorem zscoreVols_mean :
    listMean (zscoreVols.dropLast.drop (zscoreVols.dropLast.length - 15)) = 10 := by
  have h2 : zscoreVols.dropLast.drop (zscoreVols.dropLast.length - 15) =
      [15, 6, 9, 13, 7, 10, 10, 10, 10, 10, 10, 10, 10, 10, 10] := rfl
  rw [h2]
  norm_num [listMean]

/-- C1 counterexample: on `zscoreVols` (16 volumes, current bar 50,
previous bar 10, history slice with mean 10 and standard deviation 2) the
z-score the claim describes is 20, but the z-score the classifier computes
at line 119, `calculate_volume_zscore(volumes[:-1], 15)`, is 0: the value
scored is the previous bar's volume, which lies inside the slice. -/
theorem C1_counterexample :
    zscoreSpecC1 zscoreVols = 20 ∧
      calculate_volume_zscore zscoreVols.dropLast 15 = 0 ∧
      zscoreSpecC1 zscoreVols ≠ calculate_volume_zscore zscoreVols.dropLast 15 := by
  have hgl : zscoreVols.getLastD 0 = 50 := rfl
  have hgl2 : zscoreVols.dropLast.getLastD 0 = 10 := rfl
  have ha : zscoreSpecC1 zscoreVols = 20 := by
    unfold zscoreSpecC1
    rw [if_neg (by decide : ¬zscoreVols.dropLast.length < 15), zscoreVols_std,
      if_neg (by norm_num : ¬(2 : ℚ) = 0), zscoreVols_mean, hgl]
    norm_num
  have hb : calculate_volume_zscore zscoreVols.dropLast 15 = 0 := by
    unfold calculate_volume_zscore
    rw [if_neg (by decide : ¬zscoreVols.dropLast.length < 15), zscoreVols_std,
      if_neg (by norm_num : ¬(2 : ℚ) = 0), zscoreVols_mean, hgl2]
    norm_num
  refine ⟨ha, hb, ?_⟩
  rw [ha, hb]
  norm_num

/-- C1 (amended): the z-score used by the classifier equals the amended
formula — the scored value is the previous bar's volume, the mean and
standard deviation are over the last 15 values of the history excluding
the current bar, and (second conjunct) the scored value is a member of
that slice; 0 when the history holds fewer than 15 values. -/
theorem C1_amended_zscore :
    (∀ volumes : List ℚ,
        calculate_volume_zscore volumes.dropLast 15 = zscoreSpecAmended volumes) ∧
    (∀ volumes : List ℚ, 15 ≤ volumes.dropLast.length →
        volumes.dropLast.getLastD 0 ∈
          volumes.dropLast.drop (volumes.dropLast.length - 15)) :=
  ⟨fun _ => rfl, fun _ h => getLastD_mem_drop _ h⟩

/-- Witness for C1: the amended equality and the slice membership at the
concrete input `zscoreVols`. -/
theorem C1_witness :
    calculate_volume_zscore zscoreVols.dropLast 15 = zscoreSpecAmended zscoreVols ∧
      zscoreVols.dropLast.getLastD 0 ∈
        zscoreVols.dropLast.drop (zscoreVols.dropLast.length - 15) :=
  ⟨C1_amended_zscore.1 zscoreVols, C1_amended_zscore.2 zscoreVols (by decide)⟩

/-! ### Claim C2 -/

/-- Cooldown map holding a single entry recorded at time 0. -/
def testRecent : RecentSignals := recordSignal (fun _ => none) "BTC/USDT:USDT" 0

/-- C2: once a signal for an instrument is recorded at time T, the scan
loop's gate skips it exactly while `now - T < SIGNAL_COOLDOWN_MIN * 60`
and analyzes it again as soon as `now - T` reaches the window; and the
end-of-cycle sweep (eviction of entries older than three cooldown
windows at a sweep time `t ≤ now`) never changes the gate's outcome. -/
theorem C2_cooldown :
    (∀ (recent : RecentSignals) (symbol : String) (T now : ℚ),
        recent symbol = some T →
        (shouldAnalyze recent symbol now ↔ SIGNAL_COOLDOWN_MIN * 60 ≤ now - T)) ∧
    (∀ (recent : RecentSignals) (symbol : String) (t now : ℚ), t ≤ now →
        (shouldAnalyze (sweepSignals recent t) symbol now ↔
          shouldAnalyze recent symbol now)) := by
  constructor
  · intro recent symbol T now h
    unfold shouldAnalyze
    rw [h]
    exact not_lt
  · intro recent symbol t now htn
    unfold shouldAnalyze sweepSignals
    cases hrs : recent symbol with
    | none => simp
    | some T =>
      show (match (if t - T < SIGNAL_COOLDOWN_MIN * 60 * 3 then some T else none) with
            | none => True
            | some u => ¬now - u < SIGNAL_COOLDOWN_MIN * 60) ↔
          ¬now - T < SIGNAL_COOLDOWN_MIN * 60
      split_ifs with hk
      · exact Iff.rfl
      · show True ↔ ¬(now - T < SIGNAL_COOLDOWN_MIN * 60)
        constructor
        · intro _
          have h3 : SIGNAL_COOLDOWN_MIN * 60 * 3 ≤ t - T := not_lt.mp hk
          intro hlt
          norm_num [SIGNAL_COOLDOWN_MIN] at h3 hlt
          linarith
        · intro _
          trivial

/-- Witness for C2: the gate and sweep equivalences at a concrete map with
one entry recorded at time 0, gate time 400, sweep time 100. -/
theorem C2_witness :
    (shouldAnalyze testRecent "BTC/USDT:USDT" 400 ↔
      SIGNAL_COOLDOWN_MIN * 60 ≤ (400 : ℚ) - 0) ∧
    (shouldAnalyze (sweepSignals testRecent 100) "BTC/USDT:USDT" 400 ↔
      shouldAnalyze testRecent "BTC/USDT:USDT" 400) :=
  ⟨C2_cooldown.1 testRecent "BTC/USDT:USDT" 0 400 (by simp [testRecent, recordSignal]),
   C2_cooldown.2 testRecent "BTC/USDT:USDT" 100 400 (by norm_num)⟩

/-! ### Claim C3 -/

/-- C3 counterexample: on the 25-candle window the claim describes (flat
closes 100 with a final 106, 20-value volume history of mean 10 and
standard deviation 2, current volume 50, min-volume gate 0) the classifier
returns None — its length guard requires at least 30 candles — rather
than a STRONG PUMP signal. -/
theorem C3_counterexample :
    analyze_pump_dump cfgScenA 0 "TEST/USDT:USDT" windowClaimA = none := rfl

/-- C3 (amended): on a 30-candle window whose closes oscillate by 1 (so
RSI stays inside the extremity band) and end with a two-candle rise from
100 to 106 (6%), with current volume 50, flat volume history (the z-score
computed by the code is 0 but the 3-bar/10-bar growth ratio 7/3 passes),
and the min-volume gate set to 0, the classifier yields a PUMP signal of
the STRONG tier (confidence 85). -/
theorem C3_amended :
    (analyze_pump_dump cfgScenA 0 "TEST/USDT:USDT" windowScenA).map
      (fun sig => (sig.type, sig.confidence, sig.strength)) =
    some ("PUMP", 85, "💥 СИЛЬНЫЙ") := by
  rw [analyze_scenA]
  have hpump : is_pump cfgScenA windowScenA := by
    show calculate_price_change windowScenA ≥ cfgScenA.PRICE_CHANGE_THRESHOLD
    rw [pc_scenA]
    norm_num [cfgScenA]
  have habs : |calculate_price_change windowScenA| ≥ 5 := by
    rw [pc_scenA]
    norm_num
  simp [mkSignal, hpump, habs]

/-! ### Claim C4 -/

/-- C4: the classifier signals only when the current bar's volume meets
MIN_ABSOLUTE_VOLUME and the OR-combined volume confirmation (z-score
meets VOLUME_SPIKE_THRESHOLD or growth ratio meets 1.8) passes; whenever
the current bar's volume is below the minimum it returns None. -/
theorem C4_volume_gate :
    (∀ (cfg : Config) (now : ℚ) (s : String) (o : List Candle),
        currentVolume o < cfg.MIN_ABSOLUTE_VOLUME →
        analyze_pump_dump cfg now s o = none) ∧
    (∀ (cfg : Config) (now : ℚ) (s : String) (o : List Candle) (sig : Signal),
        analyze_pump_dump cfg now s o = some sig →
        currentVolume o ≥ cfg.MIN_ABSOLUTE_VOLUME ∧
          (zscoreOf o ≥ cfg.VOLUME_SPIKE_THRESHOLD ∨ volumeGrowth o ≥ 1.8)) := by
  constructor
  · intro cfg now s o h
    unfold analyze_pump_dump
    by_cases h1 : o.length < 30
    · rw [if_pos h1]
    · rw [if_neg h1, if_neg (fun hc => absurd hc.2.1.1 (not_le.mpr h))]
  · intro cfg now s o sig h
    obtain ⟨-, -, hvo, -, -⟩ := analyze_some_elim h
    exact hvo

/-- Witness for C4: the liquidity gate refuses `lowVolWindow` (current
volume 100 < 30000) and the produced signal on `signalWindow` passed the
volume confirmation. -/
theorem C4_witness :
    analyze_pump_dump defaultConfig 0 "LOW/USDT:USDT" lowVolWindow = none ∧
      (currentVolume signalWindow ≥ defaultConfig.MIN_ABSOLUTE_VOLUME ∧
        (zscoreOf signalWindow ≥ defaultConfig.VOLUME_SPIKE_THRESHOLD ∨
          volumeGrowth signalWindow ≥ 1.8)) :=
  ⟨C4_volume_gate.1 defaultConfig 0 "LOW/USDT:USDT" lowVolWindow
      (by rw [show currentVolume lowVolWindow = (100 : ℚ) from rfl]; norm_num [defaultConfig]),
   C4_volume_gate.2 defaultConfig 0 "A/USDT:USDT" signalWindow
      (mkSignal defaultConfig 0 "A/USDT:USDT" signalWindow)
      (analyze_signalWindow 0 "A/USDT:USDT")⟩

/-! ### Claim C5 -/

/-- C5: when the price change lies strictly between the negative and
positive thresholds the classifier returns None, and any produced signal
has type "PUMP" exactly when the change met the positive threshold and
"DUMP" exactly when it met the negative one. -/
theorem C5_direction :
    (∀ (now : ℚ) (s : String) (o : List Candle),
        -defaultConfig.PRICE_CHANGE_THRESHOLD < calculate_price_change o →
        calculate_price_change o < defaultConfig.PRICE_CHANGE_THRESHOLD →
        analyze_pump_dump defaultConfig now s o = none) ∧
    (∀ (now : ℚ) (s : String) (o : List Candle) (sig : Signal),
        analyze_pump_dump defaultConfig now s o = some sig →
        (sig.type = "PUMP" ↔
          calculate_price_change o ≥ defaultConfig.PRICE_CHANGE_THRESHOLD) ∧
        (sig.type = "DUMP" ↔
          calculate_price_change o ≤ -defaultConfig.PRICE_CHANGE_THRESHOLD)) := by
  constructor
  · intro now s o hlo hhi
    unfold analyze_pump_dump
    by_cases h1 : o.length < 30
    · rw [if_pos h1]
    · have hng : ¬((is_pump defaultConfig o ∨ is_dump defaultConfig o) ∧
          volume_ok defaultConfig o ∧ rsi_filter o) := by
        rintro ⟨hp | hd, -, -⟩
        · exact absurd hp (not_le.mpr hhi)
        · exact absurd hd (not_le.mpr hlo)
      rw [if_neg h1, if_neg hng]
  · intro now s o sig h
    obtain ⟨-, hdir, -, -, hsig⟩ := analyze_some_elim h
    subst hsig
    constructor
    · by_cases hp : is_pump defaultConfig o
      · simp [mkSignal, hp]
      · simp [mkSignal, hp]
    · by_cases hp : is_pump defaultConfig o
      · have hnd : ¬(calculate_price_change o ≤ -defaultConfig.PRICE_CHANGE_THRESHOLD) := by
          have hp' : (2.5 : ℚ) ≤ calculate_price_change o := hp
          intro hc
          have hc' : calculate_price_change o ≤ -(2.5 : ℚ) := hc
          linarith
        simp [mkSignal, hp, hnd]
      · have hd : is_dump defaultConfig o := hdir.resolve_left hp
        simp [mkSignal, hp, hd]

/-- Witness for C5: scenario B (a 1% move) yields None, and the signal on
`signalWindow` carries type "PUMP" matching its 6% move. -/
theorem C5_witness :
    analyze_pump_dump defaultConfig 0 "B/USDT:USDT" windowScenB = none ∧
      ((mkSignal defaultConfig 0 "A/USDT:USDT" signalWindow).type = "PUMP" ↔
        calculate_price_change signalWindow ≥ defaultConfig.PRICE_CHANGE_THRESHOLD) :=
  ⟨C5_direction.1 0 "B/USDT:USDT" windowScenB
      (by rw [pc_scenB]; norm_num [defaultConfig])
      (by rw [pc_scenB]; norm_num [defaultConfig]),
   (C5_direction.2 0 "A/USDT:USDT" signalWindow
      (mkSignal defaultConfig 0 "A/USDT:USDT" signalWindow)
      (analyze_signalWindow 0 "A/USDT:USDT")).1⟩

/-! ### Claim C6 -/

/-- C6: whenever the RSI over the trailing 30 closes is above 85 or below
15 the classifier returns None, regardless of the other gates. -/
theorem C6_rsi_extremity :
    ∀ (cfg : Config) (now : ℚ) (s : String) (o : List Candle),
      rsiOf o > 85 ∨ rsiOf o < 15 → analyze_pump_dump cfg now s o = none := by
  intro cfg now s o h
  unfold analyze_pump_dump
  by_cases h1 : o.length < 30
  · rw [if_pos h1]
  · rw [if_neg h1, if_neg (fun hc => hc.2.2 h)]

/-- Witness for C6: the flat-then-jump window has RSI exactly 100 (its
price and volume gates would pass) and is rejected. -/
theorem C6_witness :
    (rsiOf rsi100Window > 85 ∨ rsiOf rsi100Window < 15) ∧
      analyze_pump_dump defaultConfig 0 "FLAT/USDT:USDT" rsi100Window = none := by
  have h : rsiOf rsi100Window > 85 ∨ rsiOf rsi100Window < 15 := by
    left
    rw [rsi_flat]
    norm_num
  exact ⟨h, C6_rsi_extremity defaultConfig 0 "FLAT/USDT:USDT" rsi100Window h⟩

/-! ### Claim C7 -/

/-- Fifteen strictly increasing closes: all differences are positive, so
the seed average loss is zero. -/
def upPrices : List ℚ := [1, 2, 3, 4, 5, 6, 7, 8, 9, 10, 11, 12, 13, 14, 15]

/-- C7: each indicator maps its numeric-degenerate input to its fallback:
z-score 0 when the window's standard deviation is 0, price change 0 when
the reference close is 0, RSI 100 when the (seed) average loss is 0; the
embedded functions are total, so no exception can arise. -/
theorem C7_degenerate :
    (∀ (volumes : List ℚ) (period : ℕ),
        listStd (volumes.drop (volumes.length - period)) = 0 →
        calculate_volume_zscore volumes period = 0) ∧
    (∀ ohlcv : List Candle,
        (ohlcv.getD (ohlcv.length - 3) dfltCandle).close = 0 →
        calculate_price_change ohlcv = 0) ∧
    (∀ (prices : List ℚ) (period : ℕ), period + 1 ≤ prices.length →
        rsiSeedDown (npDiff prices) period = 0 →
        calculate_rsi prices period = 100) := by
  refine ⟨?_, ?_, ?_⟩
  · intro volumes period h
    unfold calculate_volume_zscore
    by_cases h1 : volumes.length < period
    · rw [if_pos h1]
    · rw [if_neg h1, if_pos h]
  · intro ohlcv h
    unfold calculate_price_change
    by_cases h1 : ohlcv.length < 3
    · rw [if_pos h1]
    · rw [if_neg h1, if_pos h]
  · intro prices period hlen h
    unfold calculate_rsi
    rw [if_neg (by omega : ¬prices.length < period + 1), if_pos h]

/-- Witness for C7: the three fallbacks at concrete degenerate inputs — a
constant volume window (standard deviation 0), candles whose reference
close is 0, and strictly increasing closes (seed average loss 0). -/
theorem C7_witness :
    calculate_volume_zscore (List.replicate 16 10) 15 = 0 ∧
      calculate_price_change (List.replicate 3 dfltCandle) = 0 ∧
      calculate_rsi upPrices 14 = 100 := by
  refine ⟨C7_degenerate.1 (List.replicate 16 10) 15 ?_,
    C7_degenerate.2.1 (List.replicate 3 dfltCandle) rfl,
    C7_degenerate.2.2 upPrices 14 (by decide) ?_⟩
  · have h : (List.replicate 16 (10 : ℚ)).drop ((List.replicate 16 (10 : ℚ)).length - 15) =
        List.replicate 15 10 := rfl
    rw [h]
    norm_num [listStd, listMean, List.sum_replicate, Rat.sqrt]
  · norm_num [rsiSeedDown, npDiff, upPrices, List.zipWith, List.filter]

/-! ### Claim C8 -/

/-- Every field of a Signal except the detection timestamp. -/
def sigFields (sig : Signal) :
    String × String × ℚ × ℚ × ℚ × ℚ × ℕ × String × ℚ × ℚ :=
  (sig.symbol, sig.type, sig.price_change, sig.volume_zscore, sig.volume_usdt,
    sig.current_price, sig.confidence, sig.strength, sig.rsi, sig.volume_growth)

/-- C8 counterexample: two calls on the same window and configuration but
at detection times 0 and 1 return signals that are not identical — the
`timestamp` field records `time.time()` of each call. -/
theorem C8_counterexample :
    analyze_pump_dump defaultConfig 0 "A/USDT:USDT" signalWindow ≠
      analyze_pump_dump defaultConfig 1 "A/USDT:USDT" signalWindow := by
  intro heq
  rw [analyze_signalWindow 0, analyze_signalWindow 1] at heq
  injection heq with h
  have h0 : (mkSignal defaultConfig 0 "A/USDT:USDT" signalWindow).timestamp = 0 := rfl
  rw [h] at h0
  have h1 : (mkSignal defaultConfig 1 "A/USDT:USDT" signalWindow).timestamp = 1 := rfl
  rw [h1] at h0
  norm_num at h0

/-- C8 (amended): two calls with the same window and configuration agree
on every Signal field except `timestamp`, which equals the detection time
of the call; in particular calls at the same time agree on all fields. -/
theorem C8_amended :
    ∀ (cfg : Config) (s : String) (o : List Candle) (n₁ n₂ : ℚ),
      (analyze_pump_dump cfg n₁ s o).map sigFields =
        (analyze_pump_dump cfg n₂ s o).map sigFields ∧
      (analyze_pump_dump cfg n₁ s o).map Signal.timestamp =
        (analyze_pump_dump cfg n₁ s o).map fun _ => n₁ := by
  intro cfg s o n₁ n₂
  unfold analyze_pump_dump
  split_ifs <;> simp [mkSignal, sigFields]

/-! ### Claim C9 -/

/-- C9: the configuration flag REQUIRE_VOLUME_CONFIRMATION is never read
by the classifier — flipping it changes nothing about the result; the
volume-confirmation test of line 139 is applied unconditionally. -/
theorem C9_flag_inert :
    ∀ (cfg : Config) (b₁ b₂ : Bool) (now : ℚ) (s : String) (o : List Candle),
      analyze_pump_dump { cfg with REQUIRE_VOLUME_CONFIRMATION := b₁ } now s o =
        analyze_pump_dump { cfg with REQUIRE_VOLUME_CONFIRMATION := b₂ } now s o := by
  intro cfg b₁ b₂ now s o
  rfl

/-! ### Claim C10 -/

theorem confidenceSpec (x : ℚ) :
    ((if |x| ≥ 5 then (85 : ℕ) else if |x| ≥ 3.5 then 75 else 65) = 85 ↔ |x| ≥ 5) ∧
    ((if |x| ≥ 5 then (85 : ℕ) else if |x| ≥ 3.5 then 75 else 65) = 75 ↔
      3.5 ≤ |x| ∧ |x| < 5) ∧
    ((if |x| ≥ 5 then (85 : ℕ) else if |x| ≥ 3.5 then 75 else 65) = 65 ↔ |x| < 3.5) := by
  by_cases h5 : |x| ≥ 5
  · simp only [if_pos h5]
    refine ⟨by simp [h5], ?_, ?_⟩
    · constructor
      · intro hh
        exact absurd hh (by decide)
      · rintro ⟨-, hb⟩
        linarith
    · constructor
      · intro hh
        exact absurd hh (by decide)
      · intro hb
        linarith
  · by_cases h35 : |x| ≥ 3.5
    · simp only [if_neg h5, if_pos h35]
      push_neg at h5
      refine ⟨?_, ⟨fun _ => ⟨h35, h5⟩, fun _ => trivial⟩, ?_⟩
      · constructor
        · intro hh
          exact absurd hh (by decide)
        · intro hb
          linarith
      · constructor
        · intro hh
          exact absurd hh (by decide)
        · intro hb
          linarith
    · simp only [if_neg h5, if_neg h35]
      push_neg at h5 h35
      refine ⟨?_, ?_, ⟨fun _ => h35, fun _ => trivial⟩⟩
      · constructor
        · intro hh
          exact absurd hh (by decide)
        · intro hb
          linarith
      · constructor
        · intro hh
          exact absurd hh (by decide)
        · rintro ⟨ha, -⟩
          linarith

/-- Output invariant of a produced signal under the default
configuration. -/
def signalInvariant (sig : Signal) : Prop :=
  (sig.confidence = 85 ∨ sig.confidence = 75 ∨ sig.confidence = 65) ∧
  (sig.confidence = 85 ↔ |sig.price_change| ≥ 5) ∧
  (sig.confidence = 75 ↔ 3.5 ≤ |sig.price_change| ∧ |sig.price_change| < 5) ∧
  (sig.confidence = 65 ↔ |sig.price_change| < 3.5) ∧
  (sig.type = "PUMP" ↔ sig.price_change ≥ 2.5) ∧
  (sig.type = "DUMP" ↔ sig.price_change ≤ -2.5) ∧
  sig.volume_usdt ≥ 30000 ∧ 15 ≤ sig.rsi ∧ sig.rsi ≤ 85

/-- C10: every non-None result of the classifier under the default
configuration satisfies the output invariant: confidence is one of
85/75/65 tiered by the absolute price change, the type matches the
threshold that fired, volume_usdt is at least 30000, and RSI lies in
[15, 85]. -/
theorem C10_output_invariant :
    ∀ (now : ℚ) (s : String) (o : List Candle),
      (analyze_pump_dump defaultConfig now s o).elim True signalInvariant := by
  intro now s o
  unfold analyze_pump_dump
  by_cases h1 : o.length < 30
  · rw [if_pos h1]
    exact trivial
  · by_cases h2 : (is_pump defaultConfig o ∨ is_dump defaultConfig o) ∧
      volume_ok defaultConfig o ∧ rsi_filter o
    · rw [if_neg h1, if_pos h2]
      show signalInvariant (mkSignal defaultConfig now s o)
      obtain ⟨hdir, hvol, hrsi⟩ := h2
      push_neg at hrsi
      unfold signalInvariant mkSignal
      dsimp only
      refine ⟨?_, (confidenceSpec (calculate_price_change o)).1,
        (confidenceSpec (calculate_price_change o)).2.1,
        (confidenceSpec (calculate_price_change o)).2.2, ?_, ?_, hvol.1, hrsi.2, hrsi.1⟩
      · split_ifs <;> simp
      · by_cases hp : is_pump defaultConfig o
        · have hp' : (2.5 : ℚ) ≤ calculate_price_change o := hp
          simp [hp, hp']
        · have hp' : ¬((2.5 : ℚ) ≤ calculate_price_change o) := hp
          simp [hp, hp']
      · by_cases hp : is_pump defaultConfig o
        · have hp' : (2.5 : ℚ) ≤ calculate_price_change o := hp
          have hnd : ¬(calculate_price_change o ≤ -(2.5 : ℚ)) := by linarith
          simp [hp, hnd]
        · have hd : calculate_price_change o ≤ -(2.5 : ℚ) := hdir.resolve_left hp
          simp [hp, hd]
    · rw [if_neg h1, if_neg h2]
      exact trivial
